import Mathlib

/-!
Verification of the azure-devops-mcp-docker repository core:
the JSON-RPC stdio-to-HTTP relay (`mcpb-package` proxy, `processMessage`)
and the per-tenant MCP client pool (`MCPClientManager` with
`generateAuthCacheKey` from `src/auth-middleware.ts`).

JSON values are modelled by an inductive `Json` type.  JSON numbers are
modelled as integers: no property examined here depends on non-integral
or floating-point number semantics.  The JavaScript runtime's
`JSON.parse` is an external library function, so the relay embedding is
parametric in a `parse : String → Except String Json` function; the
relay's own control flow, which is the code under verification, is
translated branch by branch from the source of `processMessage`.
-/

inductive Json where
  | null
  | bool (b : Bool)
  | num (n : Int)
  | str (s : String)
  | arr (items : List Json)
  | obj (fields : List (String × Json))

/-- Association-list field lookup (first binding wins), used for JS object
property reads and for the pool's `Map.get`. -/
def mapFind {α : Type} (k : String) : List (String × α) → Option α
  | [] => none
  | (k₁, v₁) :: rest => if k₁ = k then some v₁ else mapFind k rest

/-- JS property assignment on an object / `Map.set`: replace the value of an
existing key in place, otherwise append the new binding at the end. -/
def mapSet {α : Type} (k : String) (v : α) : List (String × α) → List (String × α)
  | [] => [(k, v)]
  | (k₁, v₁) :: rest => if k₁ = k then (k, v) :: rest else (k₁, v₁) :: mapSet k v rest

/-- JavaScript truthiness of a JSON value (`!x` is the negation of this). -/
def jsTruthy : Json → Bool
  | .null => false
  | .bool b => b
  | .num n => n != 0
  | .str s => s != ""
  | .arr _ => true
  | .obj _ => true

/-- JS property read `x.k` on a parsed JSON value: reading a property of
`null` throws a TypeError; objects yield the field or `undefined` (`none`);
every other value yields `undefined`. -/
def readProp (j : Json) (k : String) : Except String (Option Json) :=
  match j with
  | .null => .error ("Cannot read properties of null (reading " ++ k ++ ")")
  | .obj fields => .ok (mapFind k fields)
  | _ => .ok none

/-- A JSON-RPC error response object, in the field order the proxy writes it. -/
def rpcError (idVal : Json) (code : Int) (msg : String) : Json :=
  .obj [("jsonrpc", .str "2.0"), ("id", idVal),
        ("error", .obj [("code", .num code), ("message", .str msg)])]

/-- The proxy's `if (!response.jsonrpc)` test: the `jsonrpc` field is absent
or JS-falsy (missing, `null`, `false`, `0`, or the empty string). -/
def jsonrpcMissingOrFalsy (fields : List (String × Json)) : Bool :=
  match mapFind "jsonrpc" fields with
  | none => true
  | some v => !(jsTruthy v)

/-- `processMessage`, success branch with a parsed backend response
(proxy lines 163-179): for an object, set `jsonrpc` to `"2.0"` when
`!response.jsonrpc`, then unconditionally assign `response.id = requestId`.
Reading `.jsonrpc` of a `null` response throws, which the surrounding
`catch (parseError)` turns into a `-32700` error; property assignment on a
primitive is a silent no-op, and properties added to an array are dropped by
`JSON.stringify`, so every non-object response is emitted unchanged. -/
def respond (rid : Json) (response : Json) : Json :=
  match response with
  | .null => rpcError rid (-32700)
      "Invalid JSON response: Cannot read properties of null (reading jsonrpc)"
  | .obj fields =>
      let fields₁ := if jsonrpcMissingOrFalsy fields
        then mapSet "jsonrpc" (.str "2.0") fields else fields
      .obj (mapSet "id" rid fields₁)
  | other => other

/-- JS `String.prototype.trim`: strip leading and trailing whitespace
(computable by structural recursion, unlike `String.trim`). -/
def jsTrim (s : String) : String :=
  ⟨((s.data.dropWhile Char.isWhitespace).reverse.dropWhile Char.isWhitespace).reverse⟩

/-- Outcome of `sendToServer` as observed by the `processMessage` callback:
either a transport-level failure or timeout (`error.message` is the string),
or an HTTP response whose accumulated body is the given string. -/
inductive BackendOutcome where
  | transportError (emsg : String)
  | success (body : String)

/-- Observable effects of one `processMessage` call: the JSON objects written
to stdout (one line each) and the messages POSTed to the backend. -/
structure RelayResult where
  outputs : List Json
  sent : List Json

/-- Shallow embedding of the proxy's `processMessage` (lines 118-208),
parametric in the runtime's `JSON.parse`.  The incoming line is parsed
(failure: `-32700` with `id:null`, nothing forwarded); `requestId = message.id`
is read (a TypeError lands in the same catch block); the message is forwarded,
and the backend outcome is handled exactly as in the source: transport error
`-32603`, empty or whitespace-only body `-32603` "Empty response from server",
unparseable body `-32700`, parsed body via `respond` — with every output
suppressed when `requestId` is `undefined` (a notification). -/
def processMessage (parse : String → Except String Json) (messageText : String)
    (backend : BackendOutcome) : RelayResult :=
  match parse messageText with
  | .error e => ⟨[rpcError .null (-32700) ("Invalid JSON request: " ++ e)], []⟩
  | .ok message =>
    match readProp message "id" with
    | .error e => ⟨[rpcError .null (-32700) ("Invalid JSON request: " ++ e)], []⟩
    | .ok requestId =>
      match backend with
      | .transportError emsg =>
        match requestId with
        | none => ⟨[], [message]⟩
        | some rid => ⟨[rpcError rid (-32603) emsg], [message]⟩
      | .success body =>
        if jsTrim body = "" then
          match requestId with
          | none => ⟨[], [message]⟩
          | some rid => ⟨[rpcError rid (-32603) "Empty response from server"], [message]⟩
        else
          match parse body with
          | .error e =>
            match requestId with
            | none => ⟨[], [message]⟩
            | some rid => ⟨[rpcError rid (-32700) ("Invalid JSON response: " ++ e)], [message]⟩
          | .ok response =>
            match requestId with
            | none => ⟨[], [message]⟩
            | some rid => ⟨[respond rid response], [message]⟩

/-- The response transformation exactly as the specification words it:
`jsonrpc` is set to `"2.0"` only if it is missing, and `id` is
unconditionally overwritten with the original request id.  Stated for
comparison with the code's `respond`, whose test is JS falsiness. -/
def specResponseTransform (rid : Json) (fields : List (String × Json)) : Json :=
  let fields₁ := match mapFind "jsonrpc" fields with
    | none => mapSet "jsonrpc" (.str "2.0") fields
    | some _ => fields
  .obj (mapSet "id" rid fields₁)

/-- Concrete `JSON.parse` used by witnesses and counterexamples: the line
"REQ" is a request with id 7, "NOTIF" a notification (no id), "NULLID" a
request with id null, and the body "RESP" is a backend reply whose `jsonrpc`
field is the empty string and whose own id is 99; everything else fails to
parse. -/
def cxParse (s : String) : Except String Json :=
  if s = "REQ" then
    .ok (.obj [("jsonrpc", .str "2.0"), ("id", .num 7), ("method", .str "x")])
  else if s = "NOTIF" then
    .ok (.obj [("jsonrpc", .str "2.0"), ("method", .str "notify")])
  else if s = "NULLID" then
    .ok (.obj [("jsonrpc", .str "2.0"), ("id", .null), ("method", .str "x")])
  else if s = "RESP" then
    .ok (.obj [("jsonrpc", .str ""), ("id", .num 99), ("result", .num 5)])
  else
    .error "Unexpected token"

/-- Transport selector from `AuthenticationContext` (`'stdio' | 'http'`). -/
inductive TransportKind where
  | stdio
  | http
deriving DecidableEq

/-- `AuthenticationContext` from `src/auth-middleware.ts`: all fields
optional. -/
structure AuthenticationContext where
  azureDevOpsOrg : Option String
  mcpServerUrl : Option String
  mcpTransportType : Option TransportKind
deriving DecidableEq

/-- String form of a transport kind, as it appears in cache keys. -/
def TransportKind.render : TransportKind → String
  | .stdio => "stdio"
  | .http => "http"

/-- `generateAuthCacheKey` (auth-middleware.ts lines 82-90): join
organization (or ""), transport type (or "stdio"), and server URL (or "")
with "|". -/
def generateAuthCacheKey (authContext : AuthenticationContext) : String :=
  String.intercalate "|"
    [authContext.azureDevOpsOrg.getD "",
     (authContext.mcpTransportType.map TransportKind.render).getD "stdio",
     authContext.mcpServerUrl.getD ""]

/-- A tool descriptor (`MCPTool`). -/
structure MCPTool where
  name : String
  description : Option String
  inputSchema : Json

/-- `MCPClientInstance`.  The `client`/`transport` pair of the source is
modelled by the numeric identity `iid` of the underlying connection, drawn
from a fresh-id counter when the transport is constructed; `isReady` is the
source's `isInitialized` flag. -/
structure MCPClientInstance where
  iid : Nat
  tools : List MCPTool
  isReady : Bool
  lastUsed : Int

/-- State of an `MCPClientManager` plus the observable history of its side
effects: `clients` is the `Map<string, MCPClientInstance>`; `nextId` feeds
fresh connection identities; `handshakes` counts `client.connect` attempts
(for stdio this is also a backend process spawn); `toolFetches` counts
`listTools` calls; `closed` lists the connections on which `client.close()`
was invoked; `toolCalls` lists the `client.callTool` invocations as
(connection id, tool name, arguments actually sent). -/
structure ManagerState where
  clients : List (String × MCPClientInstance)
  nextId : Nat
  handshakes : Nat
  toolFetches : Nat
  closed : List Nat
  toolCalls : List (Nat × String × Json)

/-- A fresh manager (`new MCPClientManager()`). -/
def initialManagerState : ManagerState := ⟨[], 0, 0, 0, [], []⟩

/-- Errors thrown by the manager, by source message:
`missingOrganization` is "Missing required Azure DevOps organization",
`missingServerUrl` is "MCP server URL is required for HTTP transport",
`missingAuthContext` is the `callTool` "Authentication context is required"
error, and `backend` wraps an error propagated from connect, the tools
fetch, or a tool call. -/
inductive MCPError where
  | missingOrganization
  | missingServerUrl
  | missingAuthContext
  | backend (emsg : String)
deriving DecidableEq

/-- Outcome of the awaited part of one client-creation attempt, supplied by
the environment: `client.connect` rejects, `listTools` rejects, or both
succeed and yield a tool catalog. -/
inductive CreateOutcome where
  | connectFail (emsg : String)
  | toolsFail (emsg : String)
  | ok (tools : List MCPTool)

/-- Result of the synchronous prefix of `getOrCreateClient`: a cache hit, a
creation started and suspended at its first `await` (with the cache key and
the new connection id), or a synchronously thrown validation error. -/
inductive GocPhase1Result where
  | hit (inst : MCPClientInstance)
  | pending (cacheKey : String) (tid : Nat)
  | failed (e : MCPError)

/-- The synchronous start of `createHttpClient` / `createStdioClient` up to
and including initiating `client.connect`: for HTTP the missing-URL check
comes first (lines 61-63, before any transport is constructed); then the
transport is constructed (fresh id, a stdio spawn or HTTP connection) and
the handshake begins. -/
def startCreation (authContext : AuthenticationContext) (cacheKey : String)
    (s : ManagerState) : GocPhase1Result × ManagerState :=
  match authContext.mcpTransportType with
  | some .http =>
    match authContext.mcpServerUrl with
    | none => (.failed .missingServerUrl, s)
    | some _ => (.pending cacheKey s.nextId,
        { s with nextId := s.nextId + 1, handshakes := s.handshakes + 1 })
  | _ => (.pending cacheKey s.nextId,
      { s with nextId := s.nextId + 1, handshakes := s.handshakes + 1 })

/-- The synchronous prefix of `getOrCreateClient` (lines 38-58): organization
check, cache-key derivation, cache lookup (a hit refreshes `lastUsed` and
returns the cached instance), otherwise start creation.  Everything here runs
without suspension on the Node event loop; a second caller can interleave
only after this prefix has completed. -/
def gocPhase1 (authContext : AuthenticationContext) (now : Int)
    (s : ManagerState) : GocPhase1Result × ManagerState :=
  match authContext.azureDevOpsOrg with
  | none => (.failed .missingOrganization, s)
  | some _ =>
    let cacheKey := generateAuthCacheKey authContext
    match mapFind cacheKey s.clients with
    | some inst =>
      if inst.isReady then
        let inst₁ := { inst with lastUsed := now }
        (.hit inst₁, { s with clients := mapSet cacheKey inst₁ s.clients })
      else
        startCreation authContext cacheKey s
    | none => startCreation authContext cacheKey s

/-- The resumed remainder of `createHttpClient`/`createStdioClient` after the
handshake settles: on any failure the catch block closes the client (close
errors are swallowed) and rethrows without touching the pool; on success the
catalog is fetched, the instance is built with `lastUsed = new Date()` and
cached under the attempted key. -/
def gocPhase2 (cacheKey : String) (tid : Nat) (now : Int)
    (outcome : CreateOutcome) (s : ManagerState) :
    Except MCPError MCPClientInstance × ManagerState :=
  match outcome with
  | .connectFail emsg =>
      (.error (.backend emsg), { s with closed := s.closed ++ [tid] })
  | .toolsFail emsg =>
      (.error (.backend emsg),
       { s with toolFetches := s.toolFetches + 1, closed := s.closed ++ [tid] })
  | .ok tools =>
      let inst : MCPClientInstance :=
        { iid := tid, tools := tools, isReady := true, lastUsed := now }
      (.ok inst,
       { s with toolFetches := s.toolFetches + 1,
                clients := mapSet cacheKey inst s.clients })

/-- `getOrCreateClient` as one call: its synchronous prefix followed, when a
creation was started, by the resumption with the environment-supplied
outcome. -/
def getOrCreateClient (authContext : AuthenticationContext) (now : Int)
    (outcome : CreateOutcome) (s : ManagerState) :
    Except MCPError MCPClientInstance × ManagerState :=
  match gocPhase1 authContext now s with
  | (.failed e, s₁) => (.error e, s₁)
  | (.hit inst, s₁) => (.ok inst, s₁)
  | (.pending cacheKey tid, s₁) => gocPhase2 cacheKey tid now outcome s₁

/-- `callTool` (lines 231-251): without a context it throws; with one it
calls `getOrCreateClient` (propagating its errors), then invokes
`client.callTool({name, arguments: arguments_ || {}})` on the resulting
instance and returns the response, rethrowing a failed call. -/
def callTool (name : String) (args : Json)
    (authContext : Option AuthenticationContext) (now : Int)
    (outcome : CreateOutcome) (callResult : Except String Json)
    (s : ManagerState) : Except MCPError Json × ManagerState :=
  match authContext with
  | none => (.error .missingAuthContext, s)
  | some ctx =>
    match getOrCreateClient ctx now outcome s with
    | (.error e, s₁) => (.error e, s₁)
    | (.ok inst, s₁) =>
      let sentArgs := if jsTruthy args then args else .obj []
      let s₂ := { s₁ with toolCalls := s₁.toolCalls ++ [(inst.iid, name, sentArgs)] }
      match callResult with
      | .error emsg => (.error (.backend emsg), s₂)
      | .ok response => (.ok response, s₂)

/-- `cleanupUnusedClients` (lines 301-323): compute the cutoff, collect the
keys of all instances with `lastUsed < cutoffTime` while calling
`client.close()` on each (a rejection is only logged), then delete the
collected keys.  `closeFails` says which closes reject; the second component
returns the connection ids whose close was logged as failed. -/
def cleanupUnusedClients (maxAgeMinutes : Int) (now : Int)
    (closeFails : Nat → Bool) (s : ManagerState) : ManagerState × List Nat :=
  let cutoffTime := now - maxAgeMinutes * 60 * 1000
  let toRemove := s.clients.filter fun p => decide (p.2.lastUsed < cutoffTime)
  let keysToRemove := toRemove.map Prod.fst
  ({ s with
      closed := s.closed ++ toRemove.map fun p => p.2.iid,
      clients := s.clients.filter fun p => !(decide (p.1 ∈ keysToRemove)) },
   (toRemove.filter fun p => closeFails p.2.iid).map fun p => p.2.iid)

/-- Boolean success test for `Except`. -/
def exceptIsOk {ε α : Type} : Except ε α → Bool
  | .ok _ => true
  | .error _ => false

/-- Boolean test for a creation suspended in flight. -/
def isPendingCreation : GocPhase1Result → Bool
  | .pending _ _ => true
  | _ => false

/-- Sample tenant context: organization "acme", default (stdio) transport. -/
def sampleCtx : AuthenticationContext := ⟨some "acme", none, none⟩

/-- Two-tenant pool used by the cleanup scenario: tenant "a" last used 31
minutes before the sweep time 2000000, tenant "b" 10 minutes before. -/
def c8State : ManagerState :=
  ⟨[("a", ⟨0, [], true, 140000⟩), ("b", ⟨1, [], true, 1400000⟩)], 2, 2, 2, [], []⟩

theorem mapFind_mapSet_self {α : Type} (k : String) (v : α) (l : List (String × α)) :
    mapFind k (mapSet k v l) = some v := by
  induction l with
  | nil => simp [mapSet, mapFind]
  | cons p rest ih =>
    obtain ⟨k₁, v₁⟩ := p
    by_cases h : k₁ = k
    · simp [mapSet, h, mapFind]
    · simp [mapSet, h, mapFind, ih]

/-- C1 (amended): for every relayed message with a defined id (including id
null) whose backend POST succeeds with a non-empty body that parses as a
JSON object, the relay emits exactly one response equal to the backend
object except that `jsonrpc` is set to "2.0" if it is absent or JS-falsy
and the `id` field is unconditionally overwritten with the original
request's id; any id the backend supplied is discarded. -/
theorem relay_request_success_object
    (parse : String → Except String Json) (line body : String)
    (message rid : Json) (fields : List (String × Json))
    (hline : parse line = .ok message)
    (hid : readProp message "id" = .ok (some rid))
    (hbody : jsTrim body ≠ "")
    (hparse : parse body = .ok (.obj fields)) :
    (processMessage parse line (.success body)).outputs =
      [Json.obj (mapSet "id" rid
        (if jsonrpcMissingOrFalsy fields
         then mapSet "jsonrpc" (Json.str "2.0") fields else fields))] ∧
    mapFind "id" (mapSet "id" rid
        (if jsonrpcMissingOrFalsy fields
         then mapSet "jsonrpc" (Json.str "2.0") fields else fields)) = some rid := by
  constructor
  · simp [processMessage, hline, hid, hbody, hparse, respond]
  · exact mapFind_mapSet_self _ _ _

/-- C1 witness: concrete request id 7 with backend reply fields
`jsonrpc:"", id:99, result:5`; the relay emits one object with `jsonrpc`
rewritten to "2.0" and `id` rewritten to 7. -/
theorem relay_request_success_object_witness :
    cxParse "REQ" = .ok (.obj [("jsonrpc", .str "2.0"), ("id", .num 7), ("method", .str "x")]) ∧
    jsTrim "RESP" ≠ "" ∧
    cxParse "RESP" = .ok (.obj [("jsonrpc", .str ""), ("id", .num 99), ("result", .num 5)]) ∧
    (processMessage cxParse "REQ" (.success "RESP")).outputs =
      [Json.obj [("jsonrpc", Json.str "2.0"), ("id", Json.num 7), ("result", Json.num 5)]] :=
  ⟨rfl, by decide, rfl,
   (relay_request_success_object cxParse "REQ" "RESP" _ (Json.num 7) _
      rfl rfl (by decide) rfl).1⟩

/-- C1 counterexample: the claim says `jsonrpc` is rewritten only when it is
missing, but the code tests JS falsiness (`!response.jsonrpc`): with a
backend object whose `jsonrpc` field is present but equal to the empty
string, the relay rewrites it to "2.0", while the transformation described
by the claim leaves it "". -/
theorem relay_c1_jsonrpc_overwrite_counterexample :
    (processMessage cxParse "REQ" (.success "RESP")).outputs =
      [Json.obj [("jsonrpc", Json.str "2.0"), ("id", Json.num 7), ("result", Json.num 5)]] ∧
    specResponseTransform (Json.num 7)
        [("jsonrpc", Json.str ""), ("id", Json.num 99), ("result", Json.num 5)] =
      Json.obj [("jsonrpc", Json.str ""), ("id", Json.num 7), ("result", Json.num 5)] ∧
    (processMessage cxParse "REQ" (.success "RESP")).outputs ≠
      [specResponseTransform (Json.num 7)
        [("jsonrpc", Json.str ""), ("id", Json.num 99), ("result", Json.num 5)]] := by
  refine ⟨rfl, rfl, ?_⟩
  intro h
  have hlit : (processMessage cxParse "REQ" (.success "RESP")).outputs =
      [Json.obj [("jsonrpc", Json.str "2.0"), ("id", Json.num 7), ("result", Json.num 5)]] := rfl
  have hlit₂ : [specResponseTransform (Json.num 7)
        [("jsonrpc", Json.str ""), ("id", Json.num 99), ("result", Json.num 5)]] =
      [Json.obj [("jsonrpc", Json.str ""), ("id", Json.num 7), ("result", Json.num 5)]] := rfl
  have hcontra := (hlit.symm.trans h).trans hlit₂
  simp at hcontra

/-- C2: a relayed message whose id is absent (a notification) produces zero
output lines for every backend outcome — transport error or timeout, empty
or whitespace-only body, unparseable body, and parsed body alike — while a
message whose id is explicitly null is treated as a request and receives
exactly one response. -/
theorem relay_notification_zero_outputs :
    (∀ (parse : String → Except String Json) (line : String) (message : Json)
       (backend : BackendOutcome), parse line = .ok message →
       readProp message "id" = .ok none →
       (processMessage parse line backend).outputs = []) ∧
    (∀ (parse : String → Except String Json) (line : String) (message : Json)
       (backend : BackendOutcome), parse line = .ok message →
       readProp message "id" = .ok (some .null) →
       (processMessage parse line backend).outputs.length = 1) := by
  constructor <;>
  · intro parse line message backend hline hid
    cases backend with
    | transportError emsg => simp [processMessage, hline, hid]
    | success body =>
      by_cases hb : jsTrim body = ""
      · simp [processMessage, hline, hid, hb]
      · cases hp : parse body with
        | error e => simp [processMessage, hline, hid, hb, hp]
        | ok response => simp [processMessage, hline, hid, hb, hp]

/-- C2 witness: the concrete notification line produces no output under a
successful backend reply and under a timeout, and the concrete id-null line
gets exactly one response under a timeout. -/
theorem relay_notification_zero_outputs_witness :
    cxParse "NOTIF" = .ok (.obj [("jsonrpc", .str "2.0"), ("method", .str "notify")]) ∧
    (processMessage cxParse "NOTIF" (.success "RESP")).outputs = [] ∧
    (processMessage cxParse "NOTIF" (.transportError "Timeout")).outputs = [] ∧
    (processMessage cxParse "NULLID" (.transportError "Timeout")).outputs.length = 1 :=
  ⟨rfl,
   relay_notification_zero_outputs.1 cxParse "NOTIF" _ _ rfl rfl,
   relay_notification_zero_outputs.1 cxParse "NOTIF" _ _ rfl rfl,
   relay_notification_zero_outputs.2 cxParse "NULLID" _ _ rfl rfl⟩

/-- C3: the relay's error outputs, per request: an unparseable input line
yields exactly one `-32700` error with id null and nothing is forwarded to
the backend; a transport failure or timeout yields exactly one `-32603`
error with the original id; an empty or whitespace-only backend body yields
exactly one `-32603` "Empty response from server" with the original id; a
non-empty body that fails to parse yields exactly one `-32700` with the
original id; and every request (defined id) yields exactly one response for
every backend outcome. -/
theorem relay_error_taxonomy :
    (∀ (parse : String → Except String Json) (line e : String)
       (backend : BackendOutcome), parse line = .error e →
       processMessage parse line backend =
         ⟨[rpcError .null (-32700) ("Invalid JSON request: " ++ e)], []⟩) ∧
    (∀ (parse : String → Except String Json) (line : String) (message rid : Json)
       (emsg : String), parse line = .ok message →
       readProp message "id" = .ok (some rid) →
       (processMessage parse line (.transportError emsg)).outputs =
         [rpcError rid (-32603) emsg]) ∧
    (∀ (parse : String → Except String Json) (line body : String) (message rid : Json),
       parse line = .ok message → readProp message "id" = .ok (some rid) →
       jsTrim body = "" →
       (processMessage parse line (.success body)).outputs =
         [rpcError rid (-32603) "Empty response from server"]) ∧
    (∀ (parse : String → Except String Json) (line body e : String) (message rid : Json),
       parse line = .ok message → readProp message "id" = .ok (some rid) →
       jsTrim body ≠ "" → parse body = .error e →
       (processMessage parse line (.success body)).outputs =
         [rpcError rid (-32700) ("Invalid JSON response: " ++ e)]) ∧
    (∀ (parse : String → Except String Json) (line : String) (message rid : Json)
       (backend : BackendOutcome), parse line = .ok message →
       readProp message "id" = .ok (some rid) →
       (processMessage parse line backend).outputs.length = 1) := by
  refine ⟨?_, ?_, ?_, ?_, ?_⟩
  · intro parse line e backend hline
    cases backend <;> simp [processMessage, hline]
  · intro parse line message rid emsg hline hid
    simp [processMessage, hline, hid]
  · intro parse line body message rid hline hid hb
    simp [processMessage, hline, hid, hb]
  · intro parse line body e message rid hline hid hb hp
    simp [processMessage, hline, hid, hb, hp]
  · intro parse line message rid backend hline hid
    cases backend with
    | transportError emsg => simp [processMessage, hline, hid]
    | success body =>
      by_cases hb : jsTrim body = ""
      · simp [processMessage, hline, hid, hb]
      · cases hp : parse body with
        | error e => simp [processMessage, hline, hid, hb, hp]
        | ok response => simp [processMessage, hline, hid, hb, hp]

/-- C3 witness: each error shape at a concrete input — unparseable line,
timeout, whitespace-only body, unparseable body — plus the
exactly-one-response count on the success path. -/
theorem relay_error_taxonomy_witness :
    cxParse "garbage" = .error "Unexpected token" ∧
    processMessage cxParse "garbage" (.success "RESP") =
      ⟨[rpcError .null (-32700) "Invalid JSON request: Unexpected token"], []⟩ ∧
    (processMessage cxParse "REQ" (.transportError "Timeout")).outputs =
      [rpcError (Json.num 7) (-32603) "Timeout"] ∧
    (processMessage cxParse "REQ" (.success "  ")).outputs =
      [rpcError (Json.num 7) (-32603) "Empty response from server"] ∧
    (processMessage cxParse "REQ" (.success "bad")).outputs =
      [rpcError (Json.num 7) (-32700) "Invalid JSON response: Unexpected token"] ∧
    (processMessage cxParse "REQ" (.success "RESP")).outputs.length = 1 :=
  ⟨rfl,
   relay_error_taxonomy.1 cxParse "garbage" "Unexpected token" _ rfl,
   relay_error_taxonomy.2.1 cxParse "REQ" _ (Json.num 7) "Timeout" rfl rfl,
   relay_error_taxonomy.2.2.1 cxParse "REQ" "  " _ (Json.num 7) rfl rfl (by decide),
   relay_error_taxonomy.2.2.2.1 cxParse "REQ" "bad" "Unexpected token" _ (Json.num 7)
     rfl rfl (by decide) rfl,
   relay_error_taxonomy.2.2.2.2 cxParse "REQ" _ (Json.num 7) _ rfl rfl⟩

theorem startCreation_result (ctx : AuthenticationContext) (key : String)
    (s : ManagerState) :
    (ctx.mcpTransportType = some .http ∧ ctx.mcpServerUrl = none ∧
       startCreation ctx key s = (.failed .missingServerUrl, s)) ∨
    startCreation ctx key s = (.pending key s.nextId,
      { s with nextId := s.nextId + 1, handshakes := s.handshakes + 1 }) := by
  cases htr : ctx.mcpTransportType with
  | none => right; simp [startCreation, htr]
  | some t =>
    cases t with
    | stdio => right; simp [startCreation, htr]
    | http =>
      cases hurl : ctx.mcpServerUrl with
      | none => left; exact ⟨rfl, rfl, by simp [startCreation, htr, hurl]⟩
      | some u => right; simp [startCreation, htr, hurl]

theorem gocPhase1_miss (ctx : AuthenticationContext) (now : Int) (s : ManagerState)
    (horg : ctx.azureDevOpsOrg.isSome = true)
    (hmiss : mapFind (generateAuthCacheKey ctx) s.clients = none)
    (hurl : ctx.mcpTransportType = some .http → ctx.mcpServerUrl.isSome = true) :
    gocPhase1 ctx now s = (.pending (generateAuthCacheKey ctx) s.nextId,
      { s with nextId := s.nextId + 1, handshakes := s.handshakes + 1 }) := by
  obtain ⟨o, ho⟩ := Option.isSome_iff_exists.mp horg
  rcases startCreation_result ctx (generateAuthCacheKey ctx) s with ⟨htr, hu, _⟩ | hsc
  · have hs := hurl htr
    rw [hu] at hs
    exact absurd hs (by simp)
  · simp [gocPhase1, ho, hmiss, hsc]

theorem gocPhase2_ok (key : String) (tid : Nat) (now : Int)
    (outcome : CreateOutcome) (s : ManagerState) {inst : MCPClientInstance}
    {s' : ManagerState}
    (h : gocPhase2 key tid now outcome s = (.ok inst, s')) :
    inst.isReady = true ∧ mapFind key s'.clients = some inst := by
  cases outcome with
  | connectFail emsg => simp [gocPhase2] at h
  | toolsFail emsg => simp [gocPhase2] at h
  | ok tools =>
    simp only [gocPhase2, Prod.mk.injEq, Except.ok.injEq] at h
    obtain ⟨hi, hs⟩ := h
    subst hi
    subst hs
    exact ⟨rfl, mapFind_mapSet_self _ _ _⟩

theorem getOrCreateClient_ok_cached (ctx : AuthenticationContext) (now : Int)
    (outcome : CreateOutcome) (s : ManagerState) {inst : MCPClientInstance}
    {s' : ManagerState}
    (h : getOrCreateClient ctx now outcome s = (.ok inst, s')) :
    mapFind (generateAuthCacheKey ctx) s'.clients = some inst ∧
    inst.isReady = true := by
  cases horg : ctx.azureDevOpsOrg with
  | none => simp [getOrCreateClient, gocPhase1, horg] at h
  | some o =>
    cases hfind : mapFind (generateAuthCacheKey ctx) s.clients with
    | some i =>
      cases hready : i.isReady with
      | true =>
        simp only [getOrCreateClient, gocPhase1, horg, hfind, hready, if_true,
          Prod.mk.injEq, Except.ok.injEq] at h
        obtain ⟨hi, hs⟩ := h
        subst hi
        subst hs
        exact ⟨mapFind_mapSet_self _ _ _, rfl⟩
      | false =>
        rcases startCreation_result ctx (generateAuthCacheKey ctx) s with ⟨_, _, hsc⟩ | hsc
        · simp [getOrCreateClient, gocPhase1, horg, hfind, hready, hsc] at h
        · have hred : getOrCreateClient ctx now outcome s =
              gocPhase2 (generateAuthCacheKey ctx) s.nextId now outcome
                { s with nextId := s.nextId + 1, handshakes := s.handshakes + 1 } := by
            simp [getOrCreateClient, gocPhase1, horg, hfind, hready, hsc]
          rw [hred] at h
          obtain ⟨h₁, h₂⟩ := gocPhase2_ok _ _ _ _ _ h
          exact ⟨h₂, h₁⟩
    | none =>
      rcases startCreation_result ctx (generateAuthCacheKey ctx) s with ⟨_, _, hsc⟩ | hsc
      · simp [getOrCreateClient, gocPhase1, horg, hfind, hsc] at h
      · have hred : getOrCreateClient ctx now outcome s =
            gocPhase2 (generateAuthCacheKey ctx) s.nextId now outcome
              { s with nextId := s.nextId + 1, handshakes := s.handshakes + 1 } := by
          simp [getOrCreateClient, gocPhase1, horg, hfind, hsc]
        rw [hred] at h
        obtain ⟨h₁, h₂⟩ := gocPhase2_ok _ _ _ _ _ h
        exact ⟨h₂, h₁⟩

theorem getOrCreateClient_miss_ok (ctx : AuthenticationContext) (now : Int)
    (tools : List MCPTool) (s : ManagerState)
    (horg : ctx.azureDevOpsOrg.isSome = true)
    (hmiss : mapFind (generateAuthCacheKey ctx) s.clients = none)
    (hurl : ctx.mcpTransportType = some .http → ctx.mcpServerUrl.isSome = true) :
    getOrCreateClient ctx now (.ok tools) s =
      (.ok ⟨s.nextId, tools, true, now⟩,
       { s with nextId := s.nextId + 1, handshakes := s.handshakes + 1,
                toolFetches := s.toolFetches + 1,
                clients := mapSet (generateAuthCacheKey ctx)
                  ⟨s.nextId, tools, true, now⟩ s.clients }) := by
  have hp1 := gocPhase1_miss ctx now s horg hmiss hurl
  simp [getOrCreateClient, hp1, gocPhase2]

/-- C6: after a successful `getOrCreateClient`, a second call whose context
yields the same cache key returns the same client instance (same underlying
connection, `iid`), performs no second handshake and no second catalog
fetch, and refreshes the instance's `lastUsed` timestamp to the time of the
second call. -/
theorem pool_cached_retrieval (ctx₁ ctx₂ : AuthenticationContext)
    (now₁ now₂ : Int) (o₁ o₂ : CreateOutcome) (s₀ s₁ : ManagerState)
    (i₁ : MCPClientInstance)
    (h₁ : getOrCreateClient ctx₁ now₁ o₁ s₀ = (.ok i₁, s₁))
    (hkey : generateAuthCacheKey ctx₂ = generateAuthCacheKey ctx₁)
    (horg : ctx₂.azureDevOpsOrg.isSome = true) :
    getOrCreateClient ctx₂ now₂ o₂ s₁ =
      (.ok ({ i₁ with lastUsed := now₂ }),
       { s₁ with clients := mapSet (generateAuthCacheKey ctx₁)
                   ({ i₁ with lastUsed := now₂ }) s₁.clients }) ∧
    ({ i₁ with lastUsed := now₂ } : MCPClientInstance).iid = i₁.iid ∧
    (getOrCreateClient ctx₂ now₂ o₂ s₁).2.handshakes = s₁.handshakes ∧
    (getOrCreateClient ctx₂ now₂ o₂ s₁).2.toolFetches = s₁.toolFetches := by
  obtain ⟨hfind, hready⟩ := getOrCreateClient_ok_cached ctx₁ now₁ o₁ s₀ h₁
  obtain ⟨o, ho⟩ := Option.isSome_iff_exists.mp horg
  have hmain : getOrCreateClient ctx₂ now₂ o₂ s₁ =
      (.ok ({ i₁ with lastUsed := now₂ }),
       { s₁ with clients := mapSet (generateAuthCacheKey ctx₁)
                   ({ i₁ with lastUsed := now₂ }) s₁.clients }) := by
    simp [getOrCreateClient, gocPhase1, ho, hkey, hfind, hready]
  exact ⟨hmain, rfl, by rw [hmain], by rw [hmain]⟩

/-- C6 witness: create for "acme" at time 10, retrieve again at time 20:
the same connection id 0 comes back, counters stay at one handshake and one
catalog fetch, and `lastUsed` becomes 20. -/
theorem pool_cached_retrieval_witness :
    getOrCreateClient sampleCtx 10 (.ok []) initialManagerState =
      (.ok ⟨0, [], true, 10⟩,
       ⟨[("acme|stdio|", ⟨0, [], true, 10⟩)], 1, 1, 1, [], []⟩) ∧
    sampleCtx.azureDevOpsOrg.isSome = true ∧
    (getOrCreateClient sampleCtx 20 (.ok [])
        (getOrCreateClient sampleCtx 10 (.ok []) initialManagerState).2).2.handshakes = 1 ∧
    (getOrCreateClient sampleCtx 20 (.ok [])
        (getOrCreateClient sampleCtx 10 (.ok []) initialManagerState).2).2.toolFetches = 1 := by
  have hfirst : getOrCreateClient sampleCtx 10 (.ok []) initialManagerState =
      (.ok ⟨0, [], true, 10⟩,
       ⟨[("acme|stdio|", ⟨0, [], true, 10⟩)], 1, 1, 1, [], []⟩) := rfl
  have hsecond := pool_cached_retrieval sampleCtx sampleCtx 10 20 (.ok []) (.ok [])
    initialManagerState _ _ hfirst rfl rfl
  exact ⟨hfirst, rfl, by rw [hfirst]; exact hsecond.2.2.1, by rw [hfirst]; exact hsecond.2.2.2⟩

/-- C7: when client creation fails at the handshake or at the catalog fetch,
`getOrCreateClient` closes the partially-opened connection, leaves the pool
map exactly as it was (in particular no entry under the attempted cache
key), propagates the original error to the caller, and a subsequent call
for the same key retries creation from scratch and succeeds. -/
theorem pool_creation_failure_purges (ctx : AuthenticationContext)
    (now now₂ : Int) (emsg : String) (outcome : CreateOutcome)
    (tools₂ : List MCPTool) (s : ManagerState)
    (horg : ctx.azureDevOpsOrg.isSome = true)
    (hmiss : mapFind (generateAuthCacheKey ctx) s.clients = none)
    (hurl : ctx.mcpTransportType = some .http → ctx.mcpServerUrl.isSome = true)
    (hfail : outcome = .connectFail emsg ∨ outcome = .toolsFail emsg) :
    (getOrCreateClient ctx now outcome s).1 = .error (.backend emsg) ∧
    (getOrCreateClient ctx now outcome s).2.clients = s.clients ∧
    mapFind (generateAuthCacheKey ctx)
      (getOrCreateClient ctx now outcome s).2.clients = none ∧
    (getOrCreateClient ctx now outcome s).2.closed = s.closed ++ [s.nextId] ∧
    exceptIsOk (getOrCreateClient ctx now₂ (.ok tools₂)
      (getOrCreateClient ctx now outcome s).2).1 = true := by
  have hp1 := gocPhase1_miss ctx now s horg hmiss hurl
  have hred : getOrCreateClient ctx now outcome s =
      gocPhase2 (generateAuthCacheKey ctx) s.nextId now outcome
        { s with nextId := s.nextId + 1, handshakes := s.handshakes + 1 } := by
    simp [getOrCreateClient, hp1]
  rcases hfail with hf | hf
  · subst hf
    rw [hred]
    refine ⟨by simp [gocPhase2], by simp [gocPhase2],
      by simpa [gocPhase2] using hmiss, by simp [gocPhase2], ?_⟩
    rw [getOrCreateClient_miss_ok ctx now₂ tools₂
      (gocPhase2 (generateAuthCacheKey ctx) s.nextId now (.connectFail emsg)
        { s with nextId := s.nextId + 1, handshakes := s.handshakes + 1 }).2
      horg (by simpa [gocPhase2] using hmiss) hurl]
    rfl
  · subst hf
    rw [hred]
    refine ⟨by simp [gocPhase2], by simp [gocPhase2],
      by simpa [gocPhase2] using hmiss, by simp [gocPhase2], ?_⟩
    rw [getOrCreateClient_miss_ok ctx now₂ tools₂
      (gocPhase2 (generateAuthCacheKey ctx) s.nextId now (.toolsFail emsg)
        { s with nextId := s.nextId + 1, handshakes := s.handshakes + 1 }).2
      horg (by simpa [gocPhase2] using hmiss) hurl]
    rfl

/-- C7 witness: a concrete connect failure for "acme" on an empty pool
returns the backend error, leaves the pool empty, closes connection 0, and
a retry succeeds. -/
theorem pool_creation_failure_purges_witness :
    sampleCtx.azureDevOpsOrg.isSome = true ∧
    mapFind (generateAuthCacheKey sampleCtx) initialManagerState.clients = none ∧
    (getOrCreateClient sampleCtx 0 (.connectFail "spawn npx ENOENT")
        initialManagerState).1 = .error (.backend "spawn npx ENOENT") ∧
    (getOrCreateClient sampleCtx 0 (.connectFail "spawn npx ENOENT")
        initialManagerState).2.clients = initialManagerState.clients ∧
    (getOrCreateClient sampleCtx 0 (.connectFail "spawn npx ENOENT")
        initialManagerState).2.closed = [0] ∧
    exceptIsOk (getOrCreateClient sampleCtx 1 (.ok [])
        (getOrCreateClient sampleCtx 0 (.connectFail "spawn npx ENOENT")
          initialManagerState).2).1 = true := by
  have h := pool_creation_failure_purges sampleCtx 0 1 "spawn npx ENOENT"
    (.connectFail "spawn npx ENOENT") [] initialManagerState rfl rfl
    (fun hc => nomatch hc) (Or.inl rfl)
  exact ⟨rfl, rfl, h.1, h.2.1, h.2.2.2.1, h.2.2.2.2⟩

/-- C9: `getOrCreateClient` fails with the missing-organization error
whenever the context's organization is absent, and with the
missing-server-URL error whenever the transport is http and no server URL
is present (no instance being cached under that key); in both cases the
manager state is returned entirely unchanged — no transport constructed, no
handshake attempted, pool map untouched. -/
theorem pool_validation_failures :
    (∀ (ctx : AuthenticationContext) (now : Int) (o : CreateOutcome)
       (s : ManagerState), ctx.azureDevOpsOrg = none →
       getOrCreateClient ctx now o s = (.error .missingOrganization, s)) ∧
    (∀ (ctx : AuthenticationContext) (now : Int) (o : CreateOutcome)
       (s : ManagerState), ctx.azureDevOpsOrg.isSome = true →
       ctx.mcpTransportType = some .http → ctx.mcpServerUrl = none →
       mapFind (generateAuthCacheKey ctx) s.clients = none →
       getOrCreateClient ctx now o s = (.error .missingServerUrl, s)) := by
  constructor
  · intro ctx now o s horg
    simp [getOrCreateClient, gocPhase1, horg]
  · intro ctx now o s horg htr hurl hmiss
    obtain ⟨o₁, ho⟩ := Option.isSome_iff_exists.mp horg
    simp [getOrCreateClient, gocPhase1, ho, hmiss, startCreation, htr, hurl]

/-- C9 witness: a context with no organization fails with
`missingOrganization`; organization "acme" with http transport and no URL
fails with `missingServerUrl`; both leave the fresh state unchanged. -/
theorem pool_validation_failures_witness :
    getOrCreateClient ⟨none, none, none⟩ 0 (.ok []) initialManagerState =
      (.error .missingOrganization, initialManagerState) ∧
    getOrCreateClient ⟨some "acme", none, some .http⟩ 0 (.ok []) initialManagerState =
      (.error .missingServerUrl, initialManagerState) :=
  ⟨pool_validation_failures.1 ⟨none, none, none⟩ 0 (.ok []) initialManagerState rfl,
   pool_validation_failures.2 ⟨some "acme", none, some .http⟩ 0 (.ok [])
     initialManagerState rfl rfl rfl rfl⟩

/-- C10: cache-key derivation normalizes an absent transport type to stdio:
contexts agreeing on organization and server URL, one with the transport
field absent and one with it set to stdio, produce character-for-character
identical cache keys, so every pool lookup treats them as the same tenant. -/
theorem cache_key_default_transport (org url : Option String) :
    generateAuthCacheKey ⟨org, url, none⟩ =
      generateAuthCacheKey ⟨org, url, some .stdio⟩ ∧
    ∀ s : ManagerState,
      mapFind (generateAuthCacheKey ⟨org, url, none⟩) s.clients =
      mapFind (generateAuthCacheKey ⟨org, url, some .stdio⟩) s.clients := by
  exact ⟨rfl, fun s => rfl⟩

/-- C4 counterexample: the cache is consulted only in the synchronous prefix
of `getOrCreateClient` and an instance is cached only after creation
completes, so a second call for the same tenant ("acme", stdio) issued while
the first creation is still awaiting its handshake also misses the cache and
starts a second handshake (for stdio, a second backend process): after the
two interleaved prefixes the handshake count is 2, refuting the claim that
the second caller joins the in-flight creation and never starts a second
handshake. -/
theorem pool_double_creation_counterexample :
    isPendingCreation (gocPhase1 sampleCtx 0 initialManagerState).1 = true ∧
    (gocPhase1 sampleCtx 0 initialManagerState).2.handshakes = 1 ∧
    isPendingCreation
      (gocPhase1 sampleCtx 0 (gocPhase1 sampleCtx 0 initialManagerState).2).1 = true ∧
    (gocPhase1 sampleCtx 0 (gocPhase1 sampleCtx 0 initialManagerState).2).2.handshakes = 2 :=
  ⟨rfl, rfl, rfl, rfl⟩

/-- C4 (amended): two concurrent `getOrCreateClient` calls for the same
cache key issued while creation is in flight do not join a single creation:
whenever the key is uncached, each caller's synchronous prefix starts its
own creation, so the handshake (and, for stdio, process-spawn) count rises
once per caller; the pool deduplicates only after some creation completes
and caches its instance. -/
theorem pool_concurrent_creation_duplicates (ctx : AuthenticationContext)
    (now₁ now₂ : Int) (s : ManagerState)
    (horg : ctx.azureDevOpsOrg.isSome = true)
    (hmiss : mapFind (generateAuthCacheKey ctx) s.clients = none)
    (hurl : ctx.mcpTransportType = some .http → ctx.mcpServerUrl.isSome = true) :
    isPendingCreation (gocPhase1 ctx now₁ s).1 = true ∧
    (gocPhase1 ctx now₁ s).2.handshakes = s.handshakes + 1 ∧
    isPendingCreation (gocPhase1 ctx now₂ (gocPhase1 ctx now₁ s).2).1 = true ∧
    (gocPhase1 ctx now₂ (gocPhase1 ctx now₁ s).2).2.handshakes = s.handshakes + 2 := by
  have hp1 := gocPhase1_miss ctx now₁ s horg hmiss hurl
  rw [hp1]
  have hp2 := gocPhase1_miss ctx now₂
    { s with nextId := s.nextId + 1, handshakes := s.handshakes + 1 } horg hmiss hurl
  rw [hp2]
  exact ⟨rfl, rfl, rfl, rfl⟩

/-- C4 amended witness: the concrete interleaving for tenant "acme" on an
empty pool, at times 5 and 6. -/
theorem pool_concurrent_creation_duplicates_witness :
    sampleCtx.azureDevOpsOrg.isSome = true ∧
    mapFind (generateAuthCacheKey sampleCtx) initialManagerState.clients = none ∧
    ((gocPhase1 sampleCtx 5 initialManagerState).2.handshakes =
        initialManagerState.handshakes + 1 ∧
     (gocPhase1 sampleCtx 6 (gocPhase1 sampleCtx 5 initialManagerState).2).2.handshakes =
        initialManagerState.handshakes + 2) := by
  have h := pool_concurrent_creation_duplicates sampleCtx 5 6 initialManagerState
    rfl rfl (fun hc => nomatch hc)
  exact ⟨rfl, rfl, h.2.1, h.2.2.2⟩

/-- C5 counterexample: with an empty pool (no cached, ready instance for
"acme") and a creation outcome whose catalog is empty, `callTool "foo"`
neither fails with a client-not-ready error nor with a tool-not-found error:
it triggers creation (one handshake) and invokes "foo" on the new connection
even though "foo" is not in the (empty) cached catalog, returning the
backend's reply. -/
theorem calltool_no_guard_counterexample :
    mapFind (generateAuthCacheKey sampleCtx) initialManagerState.clients = none ∧
    exceptIsOk (callTool "foo" Json.null (some sampleCtx) 0 (.ok [])
      (.ok Json.null) initialManagerState).1 = true ∧
    (callTool "foo" Json.null (some sampleCtx) 0 (.ok []) (.ok Json.null)
      initialManagerState).2.handshakes = 1 ∧
    (callTool "foo" Json.null (some sampleCtx) 0 (.ok []) (.ok Json.null)
      initialManagerState).2.toolCalls = [(0, "foo", Json.obj [])] ∧
    (mapFind (generateAuthCacheKey sampleCtx)
      (callTool "foo" Json.null (some sampleCtx) 0 (.ok []) (.ok Json.null)
        initialManagerState).2.clients).map MCPClientInstance.tools = some [] :=
  ⟨rfl, rfl, rfl, rfl, rfl⟩

/-- C5 (amended): `callTool` requires an authentication context and fails
with the missing-context error without one; given a context it delegates to
`getOrCreateClient` — creating and caching an instance when none is cached,
with creation errors propagating — and then invokes the named tool on that
instance without consulting the cached catalog, returning the call's result
or wrapping its error. -/
theorem calltool_creates_and_invokes_unchecked :
    (∀ (name : String) (args : Json) (now : Int) (outcome : CreateOutcome)
       (callResult : Except String Json) (s : ManagerState),
       callTool name args none now outcome callResult s =
         (.error .missingAuthContext, s)) ∧
    (∀ (name : String) (args : Json) (ctx : AuthenticationContext) (now : Int)
       (tools : List MCPTool) (callResult : Except String Json) (s : ManagerState),
       ctx.azureDevOpsOrg.isSome = true →
       mapFind (generateAuthCacheKey ctx) s.clients = none →
       (ctx.mcpTransportType = some .http → ctx.mcpServerUrl.isSome = true) →
       (callTool name args (some ctx) now (.ok tools) callResult s).2.handshakes =
         s.handshakes + 1 ∧
       (callTool name args (some ctx) now (.ok tools) callResult s).2.toolCalls =
         s.toolCalls ++ [(s.nextId, name, if jsTruthy args then args else Json.obj [])] ∧
       (∀ resp, callResult = .ok resp →
         (callTool name args (some ctx) now (.ok tools) callResult s).1 = .ok resp) ∧
       (∀ m, callResult = .error m →
         (callTool name args (some ctx) now (.ok tools) callResult s).1 =
           .error (.backend m))) := by
  constructor
  · intro name args now outcome callResult s
    rfl
  · intro name args ctx now tools callResult s horg hmiss hurl
    have hc := getOrCreateClient_miss_ok ctx now tools s horg hmiss hurl
    refine ⟨?_, ?_, ?_, ?_⟩
    · cases callResult <;> simp [callTool, hc]
    · cases callResult <;> simp [callTool, hc]
    · intro resp hr; subst hr; simp [callTool, hc]
    · intro m hr; subst hr; simp [callTool, hc]

/-- C5 amended witness: on an empty pool, `callTool "foo"` for "acme" with
an empty created catalog performs the handshake, records the invocation of
"foo" with empty arguments, and returns the backend reply. -/
theorem calltool_creates_and_invokes_unchecked_witness :
    sampleCtx.azureDevOpsOrg.isSome = true ∧
    mapFind (generateAuthCacheKey sampleCtx) initialManagerState.clients = none ∧
    ((callTool "bar" Json.null (some sampleCtx) 3 (.ok []) (.ok (Json.str "done"))
        initialManagerState).2.handshakes = initialManagerState.handshakes + 1 ∧
     (callTool "bar" Json.null (some sampleCtx) 3 (.ok []) (.ok (Json.str "done"))
        initialManagerState).2.toolCalls =
       initialManagerState.toolCalls ++ [(initialManagerState.nextId, "bar", Json.obj [])]) := by
  have h := (calltool_creates_and_invokes_unchecked.2 "bar" Json.null sampleCtx 3 []
    (.ok (Json.str "done")) initialManagerState rfl rfl (fun hc => nomatch hc))
  exact ⟨rfl, rfl, h.1, h.2.1⟩

theorem fst_nodup_key_inj {l : List (String × MCPClientInstance)}
    (h : (l.map Prod.fst).Nodup) {p q : String × MCPClientInstance}
    (hp : p ∈ l) (hq : q ∈ l) (hk : p.1 = q.1) : p = q := by
  induction l with
  | nil => cases hp
  | cons a t ih =>
    simp only [List.map_cons, List.nodup_cons] at h
    obtain ⟨hna, hnt⟩ := h
    rcases List.mem_cons.mp hp with rfl | hp₁
    · rcases List.mem_cons.mp hq with rfl | hq₁
      · rfl
      · exact absurd (hk ▸ List.mem_map_of_mem Prod.fst hq₁) hna
    · rcases List.mem_cons.mp hq with rfl | hq₁
      · exact absurd (hk ▸ List.mem_map_of_mem Prod.fst hp₁) hna
      · exact ih hnt hp₁ hq₁

theorem cleanup_clients_eq (cutoff : Int) (l : List (String × MCPClientInstance))
    (hnd : (l.map Prod.fst).Nodup) :
    l.filter (fun p => !(decide (p.1 ∈
        (l.filter fun q => decide (q.2.lastUsed < cutoff)).map Prod.fst))) =
    l.filter (fun p => !(decide (p.2.lastUsed < cutoff))) := by
  apply List.filter_congr
  intro p hp
  congr 1
  rw [decide_eq_decide]
  constructor
  · intro hmem
    obtain ⟨q, hq, hqk⟩ := List.mem_map.mp hmem
    obtain ⟨hql, hqs⟩ := List.mem_filter.mp hq
    have hqp : q = p := fst_nodup_key_inj hnd hql hp hqk
    exact of_decide_eq_true (hqp ▸ hqs)
  · intro hlt
    exact List.mem_map.mpr ⟨p, List.mem_filter.mpr ⟨hp, decide_eq_true hlt⟩, rfl⟩

/-- C8: `cleanupUnusedClients(maxAge)` closes and removes exactly the
instances whose `lastUsed` precedes `now − maxAge` minutes and leaves every
younger instance untouched; which closes fail has no effect on the sweep's
resulting state (a close failure prevents neither that instance's removal
nor the processing of the rest); in particular a sweep with max age 30
removes an instance idle 31 minutes and keeps one idle 10 minutes, even
when every close fails. -/
theorem cleanup_sweeps_exactly_stale :
    (∀ (maxAge now : Int) (closeFails : Nat → Bool) (s : ManagerState),
       (s.clients.map Prod.fst).Nodup →
       (cleanupUnusedClients maxAge now closeFails s).1.clients =
         s.clients.filter (fun p => !(decide (p.2.lastUsed < now - maxAge * 60 * 1000))) ∧
       (cleanupUnusedClients maxAge now closeFails s).1.closed =
         s.closed ++ (s.clients.filter fun p =>
           decide (p.2.lastUsed < now - maxAge * 60 * 1000)).map (fun p => p.2.iid)) ∧
    (∀ (maxAge now : Int) (f g : Nat → Bool) (s : ManagerState),
       (cleanupUnusedClients maxAge now f s).1 = (cleanupUnusedClients maxAge now g s).1) ∧
    ((cleanupUnusedClients 30 2000000 (fun _ => true) c8State).1.clients =
       [("b", ⟨1, [], true, 1400000⟩)] ∧
     (cleanupUnusedClients 30 2000000 (fun _ => true) c8State).1.closed = [0]) := by
  refine ⟨?_, ?_, rfl, rfl⟩
  · intro maxAge now closeFails s hnd
    exact ⟨cleanup_clients_eq (now - maxAge * 60 * 1000) s.clients hnd, rfl⟩
  · intro maxAge now f g s
    rfl

/-- C8 witness: the concrete two-tenant pool with distinct keys "a" and "b";
the sweep keeps exactly the young instance. -/
theorem cleanup_sweeps_exactly_stale_witness :
    (c8State.clients.map Prod.fst).Nodup ∧
    (cleanupUnusedClients 30 2000000 (fun _ => false) c8State).1.clients =
      c8State.clients.filter
        (fun p => !(decide (p.2.lastUsed < 2000000 - 30 * 60 * 1000))) :=
  ⟨by decide,
   (cleanup_sweeps_exactly_stale.1 30 2000000 (fun _ => false) c8State (by decide)).1⟩
